import Mathlib

/-!
Verification of the zeff screening calculator.

The repository computes effective nuclear charge (Zeff) and electron
screening constants per orbital of a chemical element, with two methods
(Slater and Clementi).  It contains two implementations of the same
pipeline: the packaged module `src/zeff/zeff.py` (embedded below in
namespace `Zeff`) and the legacy flat module `zeff.py` at the repository
root (embedded in namespace `Legacy`).

The external periodic-table collaborator (the `mendeleev` package) is
not part of the repository; it is abstracted as a snapshot type `Elem`
(atomic number, ordered electron configuration, Slater-screening
function, Clementi-fit Zeff function) and a database `Db` mapping
identifiers to elements, exactly the collaborator contract the spec
states.  Real numbers are modelled as rationals; the floating-point
`nan` sentinel used by the Clementi branch is modelled by the value
`RVal.nan` of a nan-propagating number type `RVal`.
-/

/-- A numeric value that is either finite (a rational) or the IEEE
not-a-number sentinel `np.nan`.  Arithmetic propagates `nan`, and every
comparison against `nan` is false, as in IEEE floating point. -/
inductive RVal where
  | fin (q : ℚ)
  | nan
deriving DecidableEq, Repr

namespace RVal

def add : RVal → RVal → RVal
  | fin a, fin b => fin (a + b)
  | _, _ => nan

def mul : RVal → RVal → RVal
  | fin a, fin b => fin (a * b)
  | _, _ => nan

def div : RVal → RVal → RVal
  | fin a, fin b => fin (a / b)
  | _, _ => nan

/-- Decides `|x - target| <= tol`, false whenever `x` is `nan` (IEEE comparison
semantics: every comparison involving a nan is false). -/
def withinTol (x : RVal) (target tol : ℚ) : Bool :=
  match x with
  | fin q => decide (|q - target| ≤ tol)
  | nan => false

@[simp] theorem add_fin (a b : ℚ) : add (fin a) (fin b) = fin (a + b) := rfl

@[simp] theorem mul_fin (a b : ℚ) : mul (fin a) (fin b) = fin (a * b) := rfl

@[simp] theorem div_fin (a b : ℚ) : div (fin a) (fin b) = fin (a / b) := rfl

@[simp] theorem add_nan (a : RVal) : add a nan = nan := by cases a <;> rfl

@[simp] theorem nan_add (a : RVal) : add nan a = nan := by cases a <;> rfl

@[simp] theorem nan_div (a : RVal) : div nan a = nan := by cases a <;> rfl

@[simp] theorem nan_mul (a : RVal) : mul nan a = nan := by cases a <;> rfl

end RVal

/-- One element of the external periodic-table snapshot: the collaborator
contract of the spec.  `conf` is the ordered electron configuration, a
sequence of `((n, l), occupancy)` entries in electron-filling order, as
`mendeleev`'s `elem.ec.conf` exposes it; `slater_screening` models
`elem.ec.slater_screening(n, l)`; `zeff` models
`elem.zeff(n, l, method="clementi")`. -/
structure Elem where
  atomic_number : Nat
  conf : List ((Nat × String) × Nat)
  slater_screening : Nat → String → ℚ
  zeff : Nat → String → ℚ

/-- The external database: `mendeleev.element(name)` returns the element
for a known name or symbol and raises `NoResultFound` otherwise. -/
def Db : Type := String → Option Elem

/-- The exceptions surfacing in this pipeline: `NoResultFound` from the
external lookup, Python's `AttributeError`, and pandas' `ValueError` for
mismatched column lengths. -/
inductive ZeffError where
  | noResultFound (msg : String)
  | attributeError (msg : String)
  | valueError (msg : String)
deriving DecidableEq, Repr

/-- Models `mendeleev.element(name)`: ok for a known identifier, otherwise the
`NoResultFound` exception. -/
def element (db : Db) (name : String) : Except ZeffError Elem :=
  match db name with
  | some e => Except.ok e
  | none => Except.error (ZeffError.noResultFound name)

/-- The fixed orbital-letter table `dict_l = {"s": 0, "p": 1, "d": 2, "f": 3}`
shared by both implementations. -/
def dict_l : List (String × Int) := [("s", 0), ("p", 1), ("d", 2), ("f", 3)]

/-- The `OrbitalsInfo` named tuple of `src/zeff/zeff.py`. -/
structure OrbitalsInfo where
  orbital : List String
  principal_quantum_number : List Nat
  orbital_letter : List String
  azimuthal_quantum_number : List Int
deriving DecidableEq, Repr

/-- The `SlaterInfo` named tuple of `src/zeff/zeff.py`. -/
structure SlaterInfo where
  effective_nuclear_charge : List ℚ
  screening_values : List ℚ
  screening_percentage : List ℚ
deriving DecidableEq, Repr

/-- The `ClementiInfo` named tuple of `src/zeff/zeff.py`.  The fields can
hold the nan sentinel, hence `RVal`. -/
structure ClementiInfo where
  effective_nuclear_charge : List RVal
  screening_values : List RVal
  screening_percentage : List RVal
deriving DecidableEq, Repr

/-- One row of the `elem_data` pandas DataFrame (column order
normalized; both implementations fill the same ten columns). -/
structure Row where
  n : Nat
  l : String
  l_num : Int
  orbital : String
  zef_slater : ℚ
  s_slater : ℚ
  pct_s_slater : ℚ
  zef_clementi : RVal
  s_clementi : RVal
  pct_s_clementi : RVal
deriving DecidableEq, Repr

/-- Positional assembly of the DataFrame from its ten columns:
`some rows` when all columns have the same length, otherwise `none`
(pandas raises `ValueError` on ragged columns). -/
def assembleRows : List Nat → List String → List Int → List String →
    List ℚ → List ℚ → List ℚ → List RVal → List RVal → List RVal →
    Option (List Row)
  | [], [], [], [], [], [], [], [], [], [] => some []
  | a :: as, b :: bs, c :: cs, d :: ds, e :: es, f :: fs, g :: gs,
      h :: hs, i :: is, j :: js =>
    (assembleRows as bs cs ds es fs gs hs is js).map
      (fun rows => ⟨a, b, c, d, e, f, g, h, i, j⟩ :: rows)
  | _, _, _, _, _, _, _, _, _, _ => none

/-- The sort key of `data.sort_values(by=["n", "l_num"])`: principal
quantum number ascending, then azimuthal quantum number ascending. -/
def rowLE (a b : Row) : Prop :=
  a.n < b.n ∨ (a.n = b.n ∧ a.l_num ≤ b.l_num)

instance : DecidableRel rowLE := fun a b => by
  unfold rowLE; infer_instance

instance : IsTotal Row rowLE := by
  refine ⟨fun a b => ?_⟩
  unfold rowLE
  omega

instance : IsTrans Row rowLE := by
  refine ⟨fun a b c hab hbc => ?_⟩
  unfold rowLE at *
  omega

/-- Models `data.sort_values(by=["n", "l_num"]).reset_index(drop=True)`:
sorting the rows by `(n, l_num)` ascending. -/
def sortRows (rows : List Row) : List Row :=
  List.insertionSort rowLE rows

namespace Zeff

/-- Function `orbitals` of `src/zeff/zeff.py`: looks the element up (re-raising
`NoResultFound` with an annotated message), then for each `(n, l)` key of
the configuration, in its iteration order, appends `n`, `l`,
`dict_l.get(l, -1)` and the label `f"{n}{l}"`. -/
def orbitals (db : Db) (name : String) : Except ZeffError OrbitalsInfo :=
  match element db name with
  | Except.error (ZeffError.noResultFound _) =>
      Except.error (ZeffError.noResultFound
        ("Invalid element name or symbol: " ++ name))
  | Except.error e => Except.error e
  | Except.ok elem =>
      Except.ok
        { orbital := elem.conf.map (fun x => toString x.1.1 ++ x.1.2)
          principal_quantum_number := elem.conf.map (fun x => x.1.1)
          orbital_letter := elem.conf.map (fun x => x.1.2)
          azimuthal_quantum_number :=
            elem.conf.map (fun x => (dict_l.lookup x.1.2).getD (-1)) }

/-- Function `slater` of `src/zeff/zeff.py`: per orbital `(n, l)` of the resolver
output, screening `S = elem.ec.slater_screening(n, l)` and
`Zeff = Z - S`; percentages are `(S / Z) * 100`. -/
def slater (db : Db) (name : String) : Except ZeffError SlaterInfo := do
  let orbital_info ← orbitals db name
  let elem ← element db name
  let nl := orbital_info.principal_quantum_number.zip orbital_info.orbital_letter
  let slater_s := nl.map (fun p => elem.slater_screening p.1 p.2)
  let zeff_slater := nl.map
    (fun p => (elem.atomic_number : ℚ) - elem.slater_screening p.1 p.2)
  let slater_s_percent := slater_s.map
    (fun i => i / (elem.atomic_number : ℚ) * 100)
  pure ⟨zeff_slater, slater_s, slater_s_percent⟩

/-- Function `clementi` of `src/zeff/zeff.py`: for `Z < 87`, per orbital
`Zeff = elem.zeff(n, l, "clementi")` and `S = Z - Zeff`; for `Z ≥ 87`
one `nan` per orbital; percentages are `(S / Z) * 100`, and a `nan`
screening yields a `nan` percentage. -/
def clementi (db : Db) (name : String) : Except ZeffError ClementiInfo := do
  let orbital_info ← orbitals db name
  let elem ← element db name
  let z : ℚ := (elem.atomic_number : ℚ)
  let pair : List RVal × List RVal :=
    if elem.atomic_number < 87 then
      let nl := orbital_info.principal_quantum_number.zip orbital_info.orbital_letter
      (nl.map (fun p => RVal.fin (z - elem.zeff p.1 p.2)),
       nl.map (fun p => RVal.fin (elem.zeff p.1 p.2)))
    else
      (orbital_info.principal_quantum_number.map (fun _ => RVal.nan),
       orbital_info.principal_quantum_number.map (fun _ => RVal.nan))
  let clementi_s := pair.1
  let zeff_clementi := pair.2
  let clementi_s_percent := clementi_s.map
    (fun i => RVal.mul (RVal.div i (RVal.fin z)) (RVal.fin 100))
  pure ⟨zeff_clementi, clementi_s, clementi_s_percent⟩

/-- Function `elem_data` of `src/zeff/zeff.py`: one DataFrame row per orbital,
combining the resolver columns with both methods' columns, sorted by
`(n, l_num)` ascending. -/
def elem_data (db : Db) (name : String) : Except ZeffError (List Row) := do
  let slater_info ← slater db name
  let clementi_info ← clementi db name
  let orbital_info ← orbitals db name
  match assembleRows orbital_info.principal_quantum_number
      orbital_info.orbital_letter orbital_info.azimuthal_quantum_number
      orbital_info.orbital slater_info.effective_nuclear_charge
      slater_info.screening_values slater_info.screening_percentage
      clementi_info.effective_nuclear_charge clementi_info.screening_values
      clementi_info.screening_percentage with
  | some rows => pure (sortRows rows)
  | none => Except.error (ZeffError.valueError
      "All arrays must be of the same length")

end Zeff

namespace Legacy

/-- Function `orbitals` of the legacy root `zeff.py`: no try/except around the
lookup; unrecognized orbital letters are preserved in `orbital_l` but
SKIPPED in `orbital_l_num` (`if i in dict_l: append`), so that list can
be shorter than the others. -/
def orbitals (db : Db) (name : String) :
    Except ZeffError (List String × List Nat × List String × List Int) := do
  let elem ← element db name
  let orbital_n := elem.conf.map (fun x => x.1.1)
  let orbital_l := elem.conf.map (fun x => x.1.2)
  let orbital_l_num := orbital_l.filterMap (fun i => dict_l.lookup i)
  let orbital := (orbital_n.zip orbital_l).map (fun p => toString p.1 ++ p.2)
  pure (orbital, orbital_n, orbital_l, orbital_l_num)

/-- Function `slater` of the legacy root `zeff.py`: iterates `elem.ec.conf`
directly; returns `(slater_s, zeff_slater, slater_s_percent)`. -/
def slater (db : Db) (name : String) :
    Except ZeffError (List ℚ × List ℚ × List ℚ) := do
  let elem ← element db name
  let slater_s := elem.conf.map
    (fun k => elem.slater_screening k.1.1 k.1.2)
  let zeff_slater := elem.conf.map
    (fun k => (elem.atomic_number : ℚ) - elem.slater_screening k.1.1 k.1.2)
  let slater_s_percent := slater_s.map
    (fun i => i / (elem.atomic_number : ℚ) * 100)
  pure (slater_s, zeff_slater, slater_s_percent)

/-- Function `clementi` of the legacy root `zeff.py`.  For `Z < 87` it matches
the packaged code.  For `Z ≥ 87` its loop header reads
`range(len(orbitals.orbital_n))`, where `orbitals` is the FUNCTION
object, which has no attribute `orbital_n`: Python raises
`AttributeError` instead of producing the intended nan lists.  That
branch is therefore embedded as the `AttributeError` outcome. -/
def clementi (db : Db) (name : String) :
    Except ZeffError (List RVal × List RVal × List RVal) := do
  let elem ← element db name
  if elem.atomic_number < 87 then
    let clementi_s := elem.conf.map
      (fun k => RVal.fin ((elem.atomic_number : ℚ) - elem.zeff k.1.1 k.1.2))
    let zeff_clementi := elem.conf.map
      (fun k => RVal.fin (elem.zeff k.1.1 k.1.2))
    let clementi_s_percent := clementi_s.map
      (fun i => RVal.mul (RVal.div i (RVal.fin (elem.atomic_number : ℚ)))
        (RVal.fin 100))
    pure (clementi_s, zeff_clementi, clementi_s_percent)
  else
    Except.error (ZeffError.attributeError
      "type object has no attribute orbital_n")

/-- Function `elem_data` of the legacy root `zeff.py`: same ten columns (declared
in a different dictionary order, which does not affect row contents),
ragged columns raise pandas' `ValueError`, then the same
`sort_values(by=["n", "l_num"])`. -/
def elem_data (db : Db) (name : String) : Except ZeffError (List Row) := do
  let s ← slater db name
  let c ← clementi db name
  let o ← orbitals db name
  match assembleRows o.2.1 o.2.2.1 o.2.2.2 o.1 s.2.1 s.1 s.2.2
      c.2.1 c.1 c.2.2 with
  | some rows => pure (sortRows rows)
  | none => Except.error (ZeffError.valueError
      "All arrays must be of the same length")

end Legacy

/-- Test double for Carbon (Z = 6, configuration 1s 2s 2p), with the
Slater screening values and Clementi fitted charges of the reference
tables. -/
def carbonElem : Elem where
  atomic_number := 6
  conf := [((1, "s"), 2), ((2, "s"), 2), ((2, "p"), 2)]
  slater_screening := fun n _ => if n = 1 then 3/10 else 11/4
  zeff := fun n l =>
    if n = 1 then 56727/10000 else if l = "s" then 32166/10000 else 31358/10000

/-- A snapshot knowing only Carbon. -/
def carbonDb : Db := fun name => if name = "Carbon" then some carbonElem else none

/-- Test double for Uranium (Z = 92 ≥ 87), configuration truncated to two
orbitals — enough to exercise the Clementi not-a-number branch. -/
def uraniumElem : Elem where
  atomic_number := 92
  conf := [((1, "s"), 2), ((2, "s"), 2)]
  slater_screening := fun _ _ => 0
  zeff := fun _ _ => 0

/-- A snapshot knowing only Uranium. -/
def uraniumDb : Db := fun name => if name = "Uranium" then some uraniumElem else none

/-- Test double for a hypothetical element whose configuration holds the
unrecognized orbital letter `g` — the superheavy-element edge case the
spec documents. -/
def gElem : Elem where
  atomic_number := 121
  conf := [((1, "s"), 2), ((5, "g"), 1)]
  slater_screening := fun _ _ => 0
  zeff := fun _ _ => 0

/-- A snapshot knowing only the hypothetical g-orbital element. -/
def gDb : Db := fun name => if name = "Ubu" then some gElem else none

/-! ### Evaluation lemmas: how each function reduces once the lookup is fixed -/

theorem element_ok {db : Db} {name : String} {elem : Elem}
    (h : db name = some elem) : element db name = Except.ok elem := by
  simp [element, h]

theorem element_err {db : Db} {name : String}
    (h : db name = none) :
    element db name = Except.error (ZeffError.noResultFound name) := by
  simp [element, h]

theorem orbitals_ok {db : Db} {name : String} {elem : Elem}
    (h : db name = some elem) :
    Zeff.orbitals db name = Except.ok
      { orbital := elem.conf.map (fun x => toString x.1.1 ++ x.1.2)
        principal_quantum_number := elem.conf.map (fun x => x.1.1)
        orbital_letter := elem.conf.map (fun x => x.1.2)
        azimuthal_quantum_number :=
          elem.conf.map (fun x => (dict_l.lookup x.1.2).getD (-1)) } := by
  simp [Zeff.orbitals, element_ok h]

theorem slater_ok {db : Db} {name : String} {elem : Elem}
    (h : db name = some elem) :
    Zeff.slater db name = Except.ok
      ⟨elem.conf.map
        (fun x => (elem.atomic_number : ℚ) - elem.slater_screening x.1.1 x.1.2),
       elem.conf.map (fun x => elem.slater_screening x.1.1 x.1.2),
       elem.conf.map
        (fun x => elem.slater_screening x.1.1 x.1.2 / (elem.atomic_number : ℚ) * 100)⟩ := by
  simp [Zeff.slater, orbitals_ok h, element_ok h, bind, Except.bind,
    List.zip_map', List.map_map, Function.comp_def, pure, Except.pure]

theorem clementi_ok {db : Db} {name : String} {elem : Elem}
    (h : db name = some elem) :
    Zeff.clementi db name = Except.ok
      ⟨elem.conf.map (fun x =>
          if elem.atomic_number < 87 then RVal.fin (elem.zeff x.1.1 x.1.2)
          else RVal.nan),
       elem.conf.map (fun x =>
          if elem.atomic_number < 87 then
            RVal.fin ((elem.atomic_number : ℚ) - elem.zeff x.1.1 x.1.2)
          else RVal.nan),
       elem.conf.map (fun x =>
          RVal.mul (RVal.div
            (if elem.atomic_number < 87 then
              RVal.fin ((elem.atomic_number : ℚ) - elem.zeff x.1.1 x.1.2)
            else RVal.nan)
            (RVal.fin (elem.atomic_number : ℚ))) (RVal.fin 100))⟩ := by
  by_cases h87 : elem.atomic_number < 87 <;>
    simp [Zeff.clementi, orbitals_ok h, element_ok h, h87, bind, Except.bind,
      List.zip_map', List.map_map, Function.comp_def, pure, Except.pure]

/-- The per-orbital row of the summary table, as the packaged pipeline
computes it from the snapshot. -/
def rowOf (elem : Elem) (x : (Nat × String) × Nat) : Row where
  n := x.1.1
  l := x.1.2
  l_num := (dict_l.lookup x.1.2).getD (-1)
  orbital := toString x.1.1 ++ x.1.2
  zef_slater := (elem.atomic_number : ℚ) - elem.slater_screening x.1.1 x.1.2
  s_slater := elem.slater_screening x.1.1 x.1.2
  pct_s_slater := elem.slater_screening x.1.1 x.1.2 / (elem.atomic_number : ℚ) * 100
  zef_clementi :=
    if elem.atomic_number < 87 then RVal.fin (elem.zeff x.1.1 x.1.2) else RVal.nan
  s_clementi :=
    if elem.atomic_number < 87 then
      RVal.fin ((elem.atomic_number : ℚ) - elem.zeff x.1.1 x.1.2)
    else RVal.nan
  pct_s_clementi :=
    RVal.mul (RVal.div
      (if elem.atomic_number < 87 then
        RVal.fin ((elem.atomic_number : ℚ) - elem.zeff x.1.1 x.1.2)
      else RVal.nan)
      (RVal.fin (elem.atomic_number : ℚ))) (RVal.fin 100)

theorem assembleRows_map {α : Type} (L : List α) (f1 : α → Nat)
    (f2 : α → String) (f3 : α → Int) (f4 : α → String) (f5 f6 f7 : α → ℚ)
    (f8 f9 f10 : α → RVal) :
    assembleRows (L.map f1) (L.map f2) (L.map f3) (L.map f4) (L.map f5)
      (L.map f6) (L.map f7) (L.map f8) (L.map f9) (L.map f10)
      = some (L.map (fun x =>
          ⟨f1 x, f2 x, f3 x, f4 x, f5 x, f6 x, f7 x, f8 x, f9 x, f10 x⟩)) := by
  induction L with
  | nil => rfl
  | cons a t ih => simp [assembleRows, ih]

theorem elem_data_ok {db : Db} {name : String} {elem : Elem}
    (h : db name = some elem) :
    Zeff.elem_data db name
      = Except.ok (sortRows (elem.conf.map (rowOf elem))) := by
  simp [Zeff.elem_data, slater_ok h, clementi_ok h, orbitals_ok h, bind,
    Except.bind, assembleRows_map, pure, Except.pure]
  rfl

theorem legacy_orbitals_ok {db : Db} {name : String} {elem : Elem}
    (h : db name = some elem) :
    Legacy.orbitals db name = Except.ok
      (elem.conf.map (fun x => toString x.1.1 ++ x.1.2),
       elem.conf.map (fun x => x.1.1),
       elem.conf.map (fun x => x.1.2),
       (elem.conf.map (fun x => x.1.2)).filterMap (fun i => dict_l.lookup i)) := by
  simp [Legacy.orbitals, element_ok h, bind, Except.bind, List.zip_map',
    List.map_map, Function.comp_def, pure, Except.pure]

theorem legacy_slater_ok {db : Db} {name : String} {elem : Elem}
    (h : db name = some elem) :
    Legacy.slater db name = Except.ok
      (elem.conf.map (fun x => elem.slater_screening x.1.1 x.1.2),
       elem.conf.map
        (fun x => (elem.atomic_number : ℚ) - elem.slater_screening x.1.1 x.1.2),
       elem.conf.map
        (fun x => elem.slater_screening x.1.1 x.1.2 / (elem.atomic_number : ℚ) * 100)) := by
  simp [Legacy.slater, element_ok h, bind, Except.bind, List.map_map,
    Function.comp_def, pure, Except.pure]

theorem legacy_clementi_ok {db : Db} {name : String} {elem : Elem}
    (h : db name = some elem) (h87 : elem.atomic_number < 87) :
    Legacy.clementi db name = Except.ok
      (elem.conf.map
        (fun x => RVal.fin ((elem.atomic_number : ℚ) - elem.zeff x.1.1 x.1.2)),
       elem.conf.map (fun x => RVal.fin (elem.zeff x.1.1 x.1.2)),
       elem.conf.map (fun x =>
         RVal.mul (RVal.div
           (RVal.fin ((elem.atomic_number : ℚ) - elem.zeff x.1.1 x.1.2))
           (RVal.fin (elem.atomic_number : ℚ))) (RVal.fin 100))) := by
  simp [Legacy.clementi, element_ok h, h87, bind, Except.bind, List.map_map,
    Function.comp_def, pure, Except.pure]

theorem filterMap_lookup_of_known {L : List String}
    (h : ∀ x ∈ L, (dict_l.lookup x).isSome = true) :
    L.filterMap (fun i => dict_l.lookup i)
      = L.map (fun i => (dict_l.lookup i).getD (-1)) := by
  induction L with
  | nil => rfl
  | cons a t ih =>
    have ha := h a (by simp)
    obtain ⟨v, hv⟩ := Option.isSome_iff_exists.mp ha
    simp [List.filterMap_cons, hv, ih (fun x hx => h x (by simp [hx]))]

/-! ### Claim theorems -/

instance {e a : Type} [DecidableEq e] [DecidableEq a] : DecidableEq (Except e a) := fun x y =>
  match x, y with
  | Except.ok u, Except.ok v => decidable_of_iff (u = v) (by simp)
  | Except.error u, Except.error v => decidable_of_iff (u = v) (by simp)
  | Except.ok _, Except.error _ => isFalse (by simp)
  | Except.error _, Except.ok _ => isFalse (by simp)

/-- C1 (amended): for every resolvable element, effective nuclear charge
plus screening constant equals the atomic number, per orbital, EXACTLY in
the rational model (hence within any positive tolerance, in particular
1e-6) — for the Slater method unconditionally, and for the Clementi
method whenever the atomic number is below 87 (at 87 and above the
Clementi fields are the nan sentinel, on which the identity fails). -/
theorem slater_clementi_zeff_plus_screening_eq_z (db : Db) (name : String)
    (elem : Elem) (h : db name = some elem) :
    (Zeff.slater db name).map (fun si =>
        (si.effective_nuclear_charge.zip si.screening_values).map
          (fun p => p.1 + p.2))
      = Except.ok (List.replicate elem.conf.length (elem.atomic_number : ℚ))
    ∧ (elem.atomic_number < 87 →
      (Zeff.clementi db name).map (fun ci =>
          (ci.effective_nuclear_charge.zip ci.screening_values).map
            (fun p => RVal.add p.1 p.2))
        = Except.ok (List.replicate elem.conf.length
            (RVal.fin (elem.atomic_number : ℚ)))) := by
  constructor
  · rw [slater_ok h]
    simp only [Except.map, List.zip_map', List.map_map, Function.comp_def]
    refine congrArg Except.ok (List.eq_replicate_iff.2 ⟨by simp, ?_⟩)
    intro b hb
    simp only [List.mem_map] at hb
    obtain ⟨x, _, rfl⟩ := hb
    ring
  · intro h87
    rw [clementi_ok h]
    simp only [Except.map, List.zip_map', List.map_map, Function.comp_def,
      h87, if_true, RVal.add_fin]
    refine congrArg Except.ok (List.eq_replicate_iff.2 ⟨by simp, ?_⟩)
    intro b hb
    simp only [List.mem_map] at hb
    obtain ⟨x, _, rfl⟩ := hb
    norm_num

/-- Witness for C1's theorem at the Carbon snapshot. -/
theorem slater_clementi_zeff_plus_screening_eq_z_witness :
    (Zeff.slater carbonDb "Carbon").map (fun si =>
        (si.effective_nuclear_charge.zip si.screening_values).map
          (fun p => p.1 + p.2))
      = Except.ok (List.replicate carbonElem.conf.length
          (carbonElem.atomic_number : ℚ))
    ∧ (carbonElem.atomic_number < 87 →
      (Zeff.clementi carbonDb "Carbon").map (fun ci =>
          (ci.effective_nuclear_charge.zip ci.screening_values).map
            (fun p => RVal.add p.1 p.2))
        = Except.ok (List.replicate carbonElem.conf.length
            (RVal.fin (carbonElem.atomic_number : ℚ)))) :=
  slater_clementi_zeff_plus_screening_eq_z carbonDb "Carbon" carbonElem rfl

/-- Counterexample to C1 as stated: at the Uranium snapshot (Z = 92 ≥ 87)
the Clementi method yields nan for every field, and nan + nan is not
within tolerance 1e-6 of the atomic number (an IEEE comparison with nan
is false). -/
theorem clementi_nan_breaks_invariant_above_86 :
    uraniumDb "Uranium" = some uraniumElem
    ∧ Zeff.clementi uraniumDb "Uranium" = Except.ok
        ⟨[RVal.nan, RVal.nan], [RVal.nan, RVal.nan], [RVal.nan, RVal.nan]⟩
    ∧ RVal.withinTol (RVal.add RVal.nan RVal.nan)
        ((uraniumElem.atomic_number : ℚ)) (1/1000000) = false :=
  ⟨rfl, by decide, rfl⟩

/-- C2: at a snapshot with atomic number ≥ 87 the packaged `clementi`
returns normally, one all-nan triple per orbital of the configuration;
the legacy root-module `clementi`, however, hits its
`range(len(orbitals.orbital_n))` loop header — `orbitals` there is the
function object, which has no attribute `orbital_n` — and raises
`AttributeError` instead. -/
theorem clementi_above_86_nan_and_legacy_attribute_error :
    Zeff.clementi uraniumDb "Uranium" = Except.ok
      ⟨List.replicate uraniumElem.conf.length RVal.nan,
       List.replicate uraniumElem.conf.length RVal.nan,
       List.replicate uraniumElem.conf.length RVal.nan⟩
    ∧ Legacy.clementi uraniumDb "Uranium"
      = Except.error (ZeffError.attributeError
          "type object has no attribute orbital_n") :=
  ⟨by decide, by decide⟩

/-- C3: when the identifier matches no element of the snapshot, the
resolver fails with the `NoResultFound` error class of the external
lookup (re-raised with an annotated message, not converted to another
error class), and both calculator methods and the summary assembler
propagate that same error without performing any screening
computation. -/
theorem unknown_identifier_raises_no_result_found (db : Db) (name : String)
    (h : db name = none) :
    Zeff.orbitals db name = Except.error (ZeffError.noResultFound
      ("Invalid element name or symbol: " ++ name))
    ∧ Zeff.slater db name = Except.error (ZeffError.noResultFound
      ("Invalid element name or symbol: " ++ name))
    ∧ Zeff.clementi db name = Except.error (ZeffError.noResultFound
      ("Invalid element name or symbol: " ++ name))
    ∧ Zeff.elem_data db name = Except.error (ZeffError.noResultFound
      ("Invalid element name or symbol: " ++ name)) := by
  have ho : Zeff.orbitals db name = Except.error (ZeffError.noResultFound
      ("Invalid element name or symbol: " ++ name)) := by
    simp [Zeff.orbitals, element_err h]
  have hs : Zeff.slater db name = Except.error (ZeffError.noResultFound
      ("Invalid element name or symbol: " ++ name)) := by
    simp [Zeff.slater, ho, bind, Except.bind]
  have hc : Zeff.clementi db name = Except.error (ZeffError.noResultFound
      ("Invalid element name or symbol: " ++ name)) := by
    simp [Zeff.clementi, ho, bind, Except.bind]
  have hd : Zeff.elem_data db name = Except.error (ZeffError.noResultFound
      ("Invalid element name or symbol: " ++ name)) := by
    simp [Zeff.elem_data, hs, bind, Except.bind]
  exact ⟨ho, hs, hc, hd⟩

/-- Witness for C3's theorem: the identifier Unobtainium resolves to no
element of the Carbon snapshot. -/
theorem unknown_identifier_raises_no_result_found_witness :
    Zeff.orbitals carbonDb "Unobtainium" = Except.error
      (ZeffError.noResultFound "Invalid element name or symbol: Unobtainium")
    ∧ Zeff.slater carbonDb "Unobtainium" = Except.error
      (ZeffError.noResultFound "Invalid element name or symbol: Unobtainium")
    ∧ Zeff.clementi carbonDb "Unobtainium" = Except.error
      (ZeffError.noResultFound "Invalid element name or symbol: Unobtainium")
    ∧ Zeff.elem_data carbonDb "Unobtainium" = Except.error
      (ZeffError.noResultFound "Invalid element name or symbol: Unobtainium") :=
  unknown_identifier_raises_no_result_found carbonDb "Unobtainium" rfl

/-- C4 (amended): the packaged resolver maps each orbital letter through
the fixed table `{s: 0, p: 1, d: 2, f: 3}` with sentinel −1 for letters
outside the table, preserving the letter and raising no error; the
LEGACY resolver also preserves the letter but OMITS the entry from its
azimuthal list instead of recording −1 (`if i in dict_l` filter). -/
theorem azimuthal_table_sentinel (db : Db) (name : String) (elem : Elem)
    (h : db name = some elem) :
    (Zeff.orbitals db name).map
        (fun i => (i.orbital_letter, i.azimuthal_quantum_number))
      = Except.ok (elem.conf.map (fun x => x.1.2),
          elem.conf.map (fun x => (dict_l.lookup x.1.2).getD (-1)))
    ∧ (Legacy.orbitals db name).map (fun o => o.2.2)
      = Except.ok (elem.conf.map (fun x => x.1.2),
          (elem.conf.map (fun x => x.1.2)).filterMap
            (fun i => dict_l.lookup i)) := by
  constructor
  · rw [orbitals_ok h]; rfl
  · rw [legacy_orbitals_ok h]; rfl

/-- Witness for C4's theorem at the g-orbital snapshot: the packaged
resolver records −1 for the unrecognized letter g, the legacy resolver
drops the entry. -/
theorem azimuthal_table_sentinel_witness :
    (Zeff.orbitals gDb "Ubu").map
        (fun i => (i.orbital_letter, i.azimuthal_quantum_number))
      = Except.ok (["s", "g"], [0, -1])
    ∧ (Legacy.orbitals gDb "Ubu").map (fun o => o.2.2)
      = Except.ok (["s", "g"], [0]) :=
  azimuthal_table_sentinel gDb "Ubu" gElem rfl

/-- Counterexample to C4 as stated: at a snapshot whose configuration
holds a g orbital, the legacy resolver returns an azimuthal list with
ONE entry for TWO orbitals and no −1 in it — the unrecognized letter's
azimuthal quantum number is not the −1 sentinel, it is absent. -/
theorem legacy_orbitals_drops_unknown_letter :
    gDb "Ubu" = some gElem
    ∧ Legacy.orbitals gDb "Ubu"
      = Except.ok (["1s", "5g"], [1, 5], ["s", "g"], [0])
    ∧ gElem.conf.length = 2
    ∧ (-1 : Int) ∉ ([0] : List Int) :=
  ⟨rfl, by decide, rfl, by decide⟩

/-- C5: the packaged resolver emits exactly one orbital per `(n, l)` key
of the configuration, in the configuration's own iteration order
(electron-filling order), each labelled by the concatenation of `n` and
the orbital letter. -/
theorem orbitals_emission_order (db : Db) (name : String) (elem : Elem)
    (h : db name = some elem) :
    (Zeff.orbitals db name).map
        (fun i => (i.orbital, i.principal_quantum_number, i.orbital_letter))
      = Except.ok (elem.conf.map (fun x => toString x.1.1 ++ x.1.2),
          elem.conf.map (fun x => x.1.1),
          elem.conf.map (fun x => x.1.2)) := by
  rw [orbitals_ok h]; rfl

/-- Witness for C5's theorem at the Carbon snapshot: filling order
1s, 2s, 2p with concatenated labels. -/
theorem orbitals_emission_order_witness :
    (Zeff.orbitals carbonDb "Carbon").map
        (fun i => (i.orbital, i.principal_quantum_number, i.orbital_letter))
      = Except.ok (["1s", "2s", "2p"], [1, 2, 2], ["s", "s", "p"]) :=
  orbitals_emission_order carbonDb "Carbon" carbonElem rfl

/-- C6: for every resolvable element the summary table has one row per
orbital of the configuration and its rows are pairwise ordered by
`(n, l_num)` ascending, whatever the filling order was; and at the
Carbon snapshot the table is exactly the three rows 1s, 2s, 2p. -/
theorem elem_data_sorted (db : Db) (name : String) (elem : Elem)
    (h : db name = some elem) :
    ∃ rows, Zeff.elem_data db name = Except.ok rows
      ∧ rows.length = elem.conf.length
      ∧ List.Pairwise rowLE rows
      ∧ (Zeff.elem_data carbonDb "Carbon").map
          (fun rs => rs.map (fun r => r.orbital))
        = Except.ok ["1s", "2s", "2p"] := by
  refine ⟨sortRows (elem.conf.map (rowOf elem)), elem_data_ok h, ?_, ?_, by decide⟩
  · calc (sortRows (elem.conf.map (rowOf elem))).length
        = (elem.conf.map (rowOf elem)).length :=
          (List.perm_insertionSort rowLE _).length_eq
      _ = elem.conf.length := by simp
  · exact List.sorted_insertionSort rowLE _

/-- Witness for C6's theorem at the Uranium snapshot (which also
exercises the Clementi nan branch in the table). -/
theorem elem_data_sorted_witness :
    ∃ rows, Zeff.elem_data uraniumDb "Uranium" = Except.ok rows
      ∧ rows.length = uraniumElem.conf.length
      ∧ List.Pairwise rowLE rows
      ∧ (Zeff.elem_data carbonDb "Carbon").map
          (fun rs => rs.map (fun r => r.orbital))
        = Except.ok ["1s", "2s", "2p"] :=
  elem_data_sorted uraniumDb "Uranium" uraniumElem rfl

/-- C7: each calculator returns one result per input orbital, in input
order, with the Slater method satisfying `Zeff = Z − S` for the external
collaborator's Slater screening `S`, the Clementi method (for `Z < 87`)
satisfying `S = Z − Zeff` for the collaborator's Clementi-fit `Zeff`,
and both percentages equal to `100·S/Z`. -/
theorem calculator_formulas (db : Db) (name : String) (elem : Elem)
    (h : db name = some elem) :
    (Zeff.slater db name).map (fun si =>
        (si.screening_values, si.effective_nuclear_charge,
         si.screening_percentage))
      = Except.ok
        (elem.conf.map (fun x => elem.slater_screening x.1.1 x.1.2),
         elem.conf.map (fun x =>
           (elem.atomic_number : ℚ) - elem.slater_screening x.1.1 x.1.2),
         elem.conf.map (fun x =>
           100 * elem.slater_screening x.1.1 x.1.2 / (elem.atomic_number : ℚ)))
    ∧ (elem.atomic_number < 87 →
      (Zeff.clementi db name).map (fun ci =>
          (ci.screening_values, ci.effective_nuclear_charge,
           ci.screening_percentage))
        = Except.ok
          (elem.conf.map (fun x =>
             RVal.fin ((elem.atomic_number : ℚ) - elem.zeff x.1.1 x.1.2)),
           elem.conf.map (fun x => RVal.fin (elem.zeff x.1.1 x.1.2)),
           elem.conf.map (fun x =>
             RVal.fin (100 * ((elem.atomic_number : ℚ) - elem.zeff x.1.1 x.1.2)
               / (elem.atomic_number : ℚ))))) := by
  constructor
  · rw [slater_ok h]
    simp only [Except.map]
    have hpct : (fun x : (Nat × String) × Nat =>
        elem.slater_screening x.1.1 x.1.2 / (elem.atomic_number : ℚ) * 100)
        = (fun x => 100 * elem.slater_screening x.1.1 x.1.2
            / (elem.atomic_number : ℚ)) :=
      funext fun x => by ring
    rw [hpct]
  · intro h87
    rw [clementi_ok h]
    simp only [Except.map, h87, if_true]
    have hpct : (fun x : (Nat × String) × Nat =>
        RVal.mul (RVal.div
          (RVal.fin ((elem.atomic_number : ℚ) - elem.zeff x.1.1 x.1.2))
          (RVal.fin (elem.atomic_number : ℚ))) (RVal.fin 100))
        = (fun x =>
            RVal.fin (100 * ((elem.atomic_number : ℚ) - elem.zeff x.1.1 x.1.2)
              / (elem.atomic_number : ℚ))) :=
      funext fun x => by simp; ring_nf
    rw [hpct]

/-- Witness for C7's theorem at the Carbon snapshot. -/
theorem calculator_formulas_witness :
    (Zeff.slater carbonDb "Carbon").map (fun si =>
        (si.screening_values, si.effective_nuclear_charge,
         si.screening_percentage))
      = Except.ok
        (carbonElem.conf.map (fun x => carbonElem.slater_screening x.1.1 x.1.2),
         carbonElem.conf.map (fun x =>
           (carbonElem.atomic_number : ℚ)
             - carbonElem.slater_screening x.1.1 x.1.2),
         carbonElem.conf.map (fun x =>
           100 * carbonElem.slater_screening x.1.1 x.1.2
             / (carbonElem.atomic_number : ℚ)))
    ∧ (carbonElem.atomic_number < 87 →
      (Zeff.clementi carbonDb "Carbon").map (fun ci =>
          (ci.screening_values, ci.effective_nuclear_charge,
           ci.screening_percentage))
        = Except.ok
          (carbonElem.conf.map (fun x =>
             RVal.fin ((carbonElem.atomic_number : ℚ)
               - carbonElem.zeff x.1.1 x.1.2)),
           carbonElem.conf.map (fun x => RVal.fin (carbonElem.zeff x.1.1 x.1.2)),
           carbonElem.conf.map (fun x =>
             RVal.fin (100 * ((carbonElem.atomic_number : ℚ)
               - carbonElem.zeff x.1.1 x.1.2)
               / (carbonElem.atomic_number : ℚ))))) :=
  calculator_formulas carbonDb "Carbon" carbonElem rfl

/-- Calling the source `elem_data` mutates no global state: it reads the
snapshot and returns; the world (the snapshot) comes back unchanged. -/
def run_elem_data (w : Db) (name : String) :
    Except ZeffError (List Row) × Db :=
  (Zeff.elem_data w name, w)

/-- Stateful view of the source `orbitals`: result plus unchanged world. -/
def run_orbitals (w : Db) (name : String) :
    Except ZeffError OrbitalsInfo × Db :=
  (Zeff.orbitals w name, w)

/-- Stateful view of the source `slater`: result plus unchanged world. -/
def run_slater (w : Db) (name : String) : Except ZeffError SlaterInfo × Db :=
  (Zeff.slater w name, w)

/-- Stateful view of the source `clementi`: result plus unchanged world. -/
def run_clementi (w : Db) (name : String) :
    Except ZeffError ClementiInfo × Db :=
  (Zeff.clementi w name, w)

/-- C8: running the pipeline twice over the same external-data snapshot
yields identical results, for the resolver, both calculators and the
summary assembler: the first run leaves the world unchanged and the
second run (on the post-state of the first) returns the same value. -/
theorem pipeline_deterministic (w : Db) (name : String) :
    (run_elem_data w name).1 = (run_elem_data (run_elem_data w name).2 name).1
    ∧ (run_elem_data (run_elem_data w name).2 name).2 = w
    ∧ (run_orbitals w name).1 = (run_orbitals (run_orbitals w name).2 name).1
    ∧ (run_slater w name).1 = (run_slater (run_slater w name).2 name).1
    ∧ (run_clementi w name).1 = (run_clementi (run_clementi w name).2 name).1 :=
  ⟨rfl, rfl, rfl, rfl, rfl⟩

/-- C9: the four resolver lists and the three lists of each calculator
(including the Clementi nan branch for atomic number ≥ 87) all have
exactly one entry per orbital of the configuration. -/
theorem list_lengths_agree (db : Db) (name : String) (elem : Elem)
    (h : db name = some elem) :
    (Zeff.orbitals db name).map (fun i =>
        (i.orbital.length, i.principal_quantum_number.length,
         i.orbital_letter.length, i.azimuthal_quantum_number.length))
      = Except.ok (elem.conf.length, elem.conf.length, elem.conf.length,
          elem.conf.length)
    ∧ (Zeff.slater db name).map (fun si =>
        (si.effective_nuclear_charge.length, si.screening_values.length,
         si.screening_percentage.length))
      = Except.ok (elem.conf.length, elem.conf.length, elem.conf.length)
    ∧ (Zeff.clementi db name).map (fun ci =>
        (ci.effective_nuclear_charge.length, ci.screening_values.length,
         ci.screening_percentage.length))
      = Except.ok (elem.conf.length, elem.conf.length, elem.conf.length) := by
  refine ⟨?_, ?_, ?_⟩
  · rw [orbitals_ok h]; simp [Except.map]
  · rw [slater_ok h]; simp [Except.map]
  · rw [clementi_ok h]; simp [Except.map]

/-- Witness for C9's theorem at the Uranium snapshot, whose Clementi
results come from the nan branch. -/
theorem list_lengths_agree_witness :
    (Zeff.orbitals uraniumDb "Uranium").map (fun i =>
        (i.orbital.length, i.principal_quantum_number.length,
         i.orbital_letter.length, i.azimuthal_quantum_number.length))
      = Except.ok (uraniumElem.conf.length, uraniumElem.conf.length,
          uraniumElem.conf.length, uraniumElem.conf.length)
    ∧ (Zeff.slater uraniumDb "Uranium").map (fun si =>
        (si.effective_nuclear_charge.length, si.screening_values.length,
         si.screening_percentage.length))
      = Except.ok (uraniumElem.conf.length, uraniumElem.conf.length,
          uraniumElem.conf.length)
    ∧ (Zeff.clementi uraniumDb "Uranium").map (fun ci =>
        (ci.effective_nuclear_charge.length, ci.screening_values.length,
         ci.screening_percentage.length))
      = Except.ok (uraniumElem.conf.length, uraniumElem.conf.length,
          uraniumElem.conf.length) :=
  list_lengths_agree uraniumDb "Uranium" uraniumElem rfl

/-- C10: for a resolvable element with atomic number below 87 whose
configuration uses only the letters s, p, d and f, the legacy root
module and the packaged module compute the same orbital sequences and
the same screening, effective-nuclear-charge and percentage values
(the legacy tuples list the same values in their own component order,
and the summary tables coincide row for row). -/
theorem legacy_packaged_equivalence (db : Db) (name : String) (elem : Elem)
    (h : db name = some elem) (h87 : elem.atomic_number < 87)
    (hl : ∀ x ∈ elem.conf, (dict_l.lookup x.1.2).isSome = true) :
    Legacy.orbitals db name
      = (Zeff.orbitals db name).map (fun i =>
          (i.orbital, i.principal_quantum_number, i.orbital_letter,
           i.azimuthal_quantum_number))
    ∧ Legacy.slater db name
      = (Zeff.slater db name).map (fun si =>
          (si.screening_values, si.effective_nuclear_charge,
           si.screening_percentage))
    ∧ Legacy.clementi db name
      = (Zeff.clementi db name).map (fun ci =>
          (ci.screening_values, ci.effective_nuclear_charge,
           ci.screening_percentage))
    ∧ Legacy.elem_data db name = Zeff.elem_data db name := by
  have hfm : (elem.conf.map (fun x => x.1.2)).filterMap
        (fun i => dict_l.lookup i)
      = (elem.conf.map (fun x => x.1.2)).map
        (fun i => (dict_l.lookup i).getD (-1)) := by
    refine filterMap_lookup_of_known ?_
    intro x hx
    simp only [List.mem_map] at hx
    obtain ⟨y, hy, rfl⟩ := hx
    exact hl y hy
  refine ⟨?_, ?_, ?_, ?_⟩
  · rw [legacy_orbitals_ok h, orbitals_ok h]
    simp [Except.map, hfm, List.map_map, Function.comp_def]
  · rw [legacy_slater_ok h, slater_ok h]
    simp [Except.map]
  · rw [legacy_clementi_ok h h87, clementi_ok h]
    simp [Except.map, h87]
  · have hle : Legacy.elem_data db name
        = Except.ok (sortRows (elem.conf.map (rowOf elem))) := by
      simp only [Legacy.elem_data, legacy_slater_ok h, legacy_clementi_ok h h87,
        legacy_orbitals_ok h, bind, Except.bind, hfm, List.map_map,
        Function.comp_def, assembleRows_map, pure, Except.pure]
      refine congrArg Except.ok (congrArg sortRows (List.map_congr_left ?_))
      intro x _
      simp [rowOf, h87]
    rw [hle, elem_data_ok h]

/-- Witness for C10's theorem at the Carbon snapshot (Z = 6 < 87, letters
s and p only). -/
theorem legacy_packaged_equivalence_witness :
    Legacy.orbitals carbonDb "Carbon"
      = (Zeff.orbitals carbonDb "Carbon").map (fun i =>
          (i.orbital, i.principal_quantum_number, i.orbital_letter,
           i.azimuthal_quantum_number))
    ∧ Legacy.slater carbonDb "Carbon"
      = (Zeff.slater carbonDb "Carbon").map (fun si =>
          (si.screening_values, si.effective_nuclear_charge,
           si.screening_percentage))
    ∧ Legacy.clementi carbonDb "Carbon"
      = (Zeff.clementi carbonDb "Carbon").map (fun ci =>
          (ci.screening_values, ci.effective_nuclear_charge,
           ci.screening_percentage))
    ∧ Legacy.elem_data carbonDb "Carbon" = Zeff.elem_data carbonDb "Carbon" :=
  legacy_packaged_equivalence carbonDb "Carbon" carbonElem rfl
    (by decide) (by decide)
